import Mathlib

/-!
Shallow embedding of `src/Mapping1.py` (stager00/Mapping1), an autonomous
exploration controller for a hexapod robot, together with theorems checking
the natural-language specification against the code.

Modelling conventions:
* Python floats carrying sensor distances are modelled as exact rationals;
  the value `float('inf')` returned by `measure_distance` when the sonar
  gives no valid reading is the dedicated constructor `DistVal.inf`.
* Python exceptions are modelled with `Except PyError`; the code's
  `int(float('inf'))`, which raises `OverflowError`, becomes
  `Except.error PyError.overflowError`, and an OpenCV failure
  (`bf.match` on `None` descriptors) becomes `Except.error PyError.cvError`.
* External drivers (sonar, camera, rng) are inputs of each cycle; the ORB
  descriptor extraction of `cv2` is a parameter `extract`, with `none`
  standing for the `des = None` that `detectAndCompute` yields on an image
  with zero keypoints.
* Python `int()` truncates toward zero; `pyInt` below does the same on ℚ.
-/

namespace Mapping1

/-- Opaque camera image buffer (`Snapshot`); identity is all we need. -/
abbrev Photo := ℕ

/-- One ORB binary descriptor, as a bit vector. -/
abbrev Desc := List Bool

/-- The Python exceptions relevant to the embedded code paths. -/
inductive PyError
  | overflowError
  | cvError
deriving DecidableEq, Repr

instance {ε α : Type} [DecidableEq ε] [DecidableEq α] : DecidableEq (Except ε α) := fun a b =>
  match a, b with
  | .error e, .error f =>
    if h : e = f then .isTrue (congrArg Except.error h)
    else .isFalse fun hh => h (Except.error.inj hh)
  | .ok x, .ok y =>
    if h : x = y then .isTrue (congrArg Except.ok h)
    else .isFalse fun hh => h (Except.ok.inj hh)
  | .error _, .ok _ => .isFalse fun hh => Except.noConfusion hh
  | .ok _, .error _ => .isFalse fun hh => Except.noConfusion hh

/-- `ALERT_DISTANCE = 15` (cm), line 20 of the source. -/
def ALERT_DISTANCE : ℚ := 15

/-- `BASE_SPEED = 100`, line 21 of the source. -/
def BASE_SPEED : ℤ := 100

/-- `TURN_ANGLE = 90`, line 22 of the source. -/
def TURN_ANGLE : ℤ := 90

/-- A filtered distance: a finite reading in cm, or the `float('inf')`
sentinel meaning "no obstacle detected". -/
inductive DistVal
  | inf
  | fin (q : ℚ)
deriving DecidableEq, Repr

/-- `measure_distance` (lines 32-37): `sonar.read()` gives `None` or a number;
`None` or a negative reading maps to `float('inf')`, otherwise the reading
passes through unchanged. -/
def measure_distance (raw : Option ℚ) : DistVal :=
  match raw with
  | none => .inf
  | some d => if d < 0 then .inf else .fin d

/-- Python `int(x)` on a finite float: truncation toward zero. -/
def pyInt (q : ℚ) : ℤ := if 0 ≤ q then ⌊q⌋ else ⌈q⌉

/-- Line 127: `speed = max(50, int(distance / ALERT_DISTANCE * BASE_SPEED))`.
On `float('inf')` the Python `int()` raises `OverflowError`, which is not
caught by the loop's `except KeyboardInterrupt`. -/
def computeSpeed (d : DistVal) : Except PyError ℤ :=
  match d with
  | .inf => .error .overflowError
  | .fin q => .ok (max 50 (pyInt (q / ALERT_DISTANCE * (BASE_SPEED : ℚ))))

/-- The three gait strings passed to `crawler.do_action`. -/
inductive GaitAction
  | forward
  | turnLeftAngle
  | turnRightAngle
deriving DecidableEq, Repr

/-- One `crawler.do_action(gait, param, speed)` call. -/
structure DoAction where
  gait : GaitAction
  param : ℤ
  speed : ℤ
deriving DecidableEq, Repr

/-- The outcome of `random.choice(['forward', 'turn left', 'turn right'])`
in `wander` (line 88), injected as an input. -/
inductive WanderChoice
  | forward
  | turnLeft
  | turnRight
deriving DecidableEq, Repr

/-- `wander` (lines 86-100): the action issued for each random choice.
Every branch passes `BASE_SPEED` to `crawler.do_action`. -/
def wander (choice : WanderChoice) : DoAction :=
  match choice with
  | .forward => ⟨.forward, 1, BASE_SPEED⟩
  | .turnLeft => ⟨.turnLeftAngle, TURN_ANGLE, BASE_SPEED⟩
  | .turnRight => ⟨.turnRightAngle, TURN_ANGLE, BASE_SPEED⟩

/-- `avoid_obstacle` (lines 102-106): always
`crawler.do_action('turn left angle', TURN_ANGLE, BASE_SPEED)`. -/
def avoid_obstacle : DoAction := ⟨.turnLeftAngle, TURN_ANGLE, BASE_SPEED⟩

/-- The guard `distance < ALERT_DISTANCE` of line 129; `float('inf')` is
never below the threshold. -/
def distLtAlert (d : DistVal) : Bool :=
  match d with
  | .inf => false
  | .fin q => decide (q < ALERT_DISTANCE)

/-- The per-cycle motion command, tagged with the branch that produced it. -/
inductive CycleCmd
  | evasive (a : DoAction)
  | wanderC (a : DoAction)
deriving DecidableEq, Repr

/-- Lines 129-138: if `distance < ALERT_DISTANCE`, attempt the alert sound
and call `avoid_obstacle` (evasive branch, alert flag `true`); otherwise
call `wander` (alert flag `false`). -/
def motionStep (d : DistVal) (choice : WanderChoice) : CycleCmd × Bool :=
  if distLtAlert d then (.evasive avoid_obstacle, true)
  else (.wanderC (wander choice), false)

/-- Whether a cycle command came from the evasive branch. -/
def isEvasiveCmd : CycleCmd → Bool
  | .evasive _ => true
  | .wanderC _ => false

/-- Hamming distance between two equal-length binary descriptors
(`cv2.NORM_HAMMING`). -/
def hamming : Desc → Desc → ℕ
  | a :: as, b :: bs => (if a = b then 0 else 1) + hamming as bs
  | _, _ => 0

/-- Nearest neighbour of `d` among the tail of the train set starting at
index `i`: earliest index attaining the minimal Hamming distance, with its
distance. -/
def bestMatchAux (d : Desc) : List Desc → ℕ → Option (ℕ × ℕ)
  | [], _ => none
  | t :: ts, i =>
    match bestMatchAux d ts (i + 1) with
    | none => some (i, hamming d t)
    | some (j, dj) => if hamming d t ≤ dj then some (i, hamming d t) else some (j, dj)

/-- Nearest neighbour of `d` in the train descriptor list. -/
def bestMatch (d : Desc) (ts : List Desc) : Option (ℕ × ℕ) := bestMatchAux d ts 0

/-- `cv2.BFMatcher(cv2.NORM_HAMMING, crossCheck=True).match(qs, ts)`:
keep the pair `(i, j)` iff `ts[j]` is the nearest neighbour of `qs[i]` and
`qs[i]` is the nearest neighbour of `ts[j]`; record the match distances. -/
def crossMatches (qs ts : List Desc) : List ℕ :=
  (List.range qs.length).filterMap fun i =>
    match qs[i]? with
    | none => none
    | some q =>
      match bestMatch q ts with
      | none => none
      | some (j, dj) =>
        match ts[j]? with
        | none => none
        | some t =>
          match bestMatch t qs with
          | none => none
          | some (i2, _) => if i2 = i then some dj else none

/-- Line 83: `len([m for m in matches if m.distance < 50])`. -/
def num_good_matches (qs ts : List Desc) : ℕ :=
  (crossMatches qs ts).countP (fun d => decide (d < 50))

/-- `compare_photos` (lines 64-84), with the ORB extraction
`orb.detectAndCompute` abstracted as `extract`. When either image yields
zero keypoints, `detectAndCompute` returns `des = None` and
`bf.match(des1, des2)` raises `cv2.error` — there is no guard in the code.
Otherwise the verdict is `num_good_matches > 10` (line 84). -/
def compare_photos (extract : Photo → Option (List Desc)) (p1 p2 : Photo) :
    Except PyError Bool :=
  match extract p1, extract p2 with
  | some ds1, some ds2 => .ok (decide (num_good_matches ds1 ds2 > 10))
  | _, _ => .error .cvError

/-- `check_orientation` (lines 108-116): scan `photo_history` in order,
calling `compare_photos(current, previous)`; return `True` on the first
match, `False` if none matches. A raised comparison exception propagates.
(The `avoid_obstacle()` side effect on a match does not touch the state
modelled here.) -/
def check_orientation (cmp : Photo → Photo → Except PyError Bool) :
    List Photo → Photo → Except PyError Bool
  | [], _ => .ok false
  | prev :: rest, cur =>
    match cmp cur prev with
    | .error e => .error e
    | .ok true => .ok true
    | .ok false => check_orientation cmp rest cur

/-- Lines 144-145 of `main`:
`if not check_orientation(current_photo): photo_history.append(current_photo)`.
Returns the verdict together with the updated history. -/
def check_and_remember (cmp : Photo → Photo → Except PyError Bool)
    (hist : List Photo) (cur : Photo) : Except PyError (Bool × List Photo) :=
  match check_orientation cmp hist cur with
  | .error e => .error e
  | .ok true => .ok (true, hist)
  | .ok false => .ok (false, hist ++ [cur])

/-- Mutable module state touched by one loop iteration: the `data` trace
list (line 26) and `photo_history` (line 27). -/
structure LoopState where
  data : List (ℤ × DistVal)
  photoHistory : List Photo
deriving DecidableEq, Repr

/-- External inputs consumed by one iteration of `main`'s loop: the sonar
reading, the rng draw of `wander`, whether the photo interval elapsed
(line 141), the camera result, and the rng draw for the recorded angle. -/
structure CycleInput where
  raw : Option ℚ
  choice : WanderChoice
  photoDue : Bool
  captured : Option Photo
  angle : ℤ

/-- The statement boundary inside the `try` block at which a
`KeyboardInterrupt` is delivered; `afterAppend` is the cycle boundary. -/
inductive IntrPoint
  | beforeMeasure
  | afterMeasure
  | afterSpeed
  | afterMotion
  | afterPhoto
  | afterAppend
deriving DecidableEq, Repr

/-- Result of one iteration: continue with the new state, stop after the
handler flushed the listed rows to `room_map.csv`/`room_map.png`, or crash
on an exception that `except KeyboardInterrupt` does not catch. -/
inductive CycleOutcome
  | cont (s : LoopState)
  | interrupted (flushed : List (ℤ × DistVal))
  | crashed (s : LoopState)
deriving DecidableEq, Repr

/-- Lines 141-146: when the photo interval elapsed and the capture
succeeded, run the place-recognition check and append the photo to
`photo_history` when it is novel; `cv2` errors propagate. -/
def photoStep (cmp : Photo → Photo → Except PyError Bool)
    (hist : List Photo) (inp : CycleInput) : Except PyError (List Photo) :=
  if inp.photoDue then
    match inp.captured with
    | none => .ok hist
    | some p =>
      match check_and_remember cmp hist p with
      | .error e => .error e
      | .ok (_, h2) => .ok h2
  else .ok hist

/-- One iteration of `main`'s `while True` body (lines 121-158), with an
optional `KeyboardInterrupt` delivered at the given statement boundary.
The `except KeyboardInterrupt` handler flushes whatever `data` holds at
that moment and breaks; any other exception is uncaught. -/
def runCycle (cmp : Photo → Photo → Except PyError Bool) (s : LoopState)
    (inp : CycleInput) (intr : Option IntrPoint) : CycleOutcome :=
  if intr = some IntrPoint.beforeMeasure then .interrupted s.data else
  let distance := measure_distance inp.raw
  if intr = some IntrPoint.afterMeasure then .interrupted s.data else
  match computeSpeed distance with
  | .error _ => .crashed s
  | .ok _ =>
    if intr = some IntrPoint.afterSpeed then .interrupted s.data else
    if intr = some IntrPoint.afterMotion then .interrupted s.data else
    match photoStep cmp s.photoHistory inp with
    | .error _ => .crashed s
    | .ok hist2 =>
      if intr = some IntrPoint.afterPhoto then .interrupted s.data else
      let s2 : LoopState := ⟨s.data ++ [(inp.angle, distance)], hist2⟩
      if intr = some IntrPoint.afterAppend then .interrupted s2.data else
      .cont s2

/-- The possible outcomes of Python `random.randint(a, b)`: the INCLUSIVE
integer range `a ≤ n ≤ b`. -/
def randintPossible (a b n : ℤ) : Prop := a ≤ n ∧ n ≤ b

instance (a b n : ℤ) : Decidable (randintPossible a b n) :=
  inferInstanceAs (Decidable (a ≤ n ∧ n ≤ b))

/-- Line 150: `angle = random.randint(0, 360)` — the headings `main` can
record in a trace sample. -/
def recordedAngle (n : ℤ) : Prop := randintPossible 0 360 n

instance (n : ℤ) : Decidable (recordedAngle n) :=
  inferInstanceAs (Decidable (randintPossible 0 360 n))

/-- A comparator that never matches (for concrete instantiations). -/
def cmpNever : Photo → Photo → Except PyError Bool := fun _ _ => .ok false

/-- A comparator judging two photos similar iff they are identical
(for concrete instantiations). -/
def cmpEq : Photo → Photo → Except PyError Bool := fun a b => .ok (decide (a = b))

/-- An extraction where photo `0` is a blank image with zero keypoints
(`des = None`) and every other photo yields one descriptor. -/
def extractBlank : Photo → Option (List Desc) :=
  fun p => if p = 0 then none else some [[true]]

/-- An extraction where every photo yields exactly one descriptor. -/
def extractOne : Photo → Option (List Desc) := fun _ => some [[true]]

/-- `compare_photos` over `extractOne`. -/
def cmpOne : Photo → Photo → Except PyError Bool := compare_photos extractOne

/-- The low four bits of `n`, as a descriptor. -/
def bits4 (n : ℕ) : Desc :=
  [decide (n % 2 = 1), decide (n / 2 % 2 = 1), decide (n / 4 % 2 = 1),
   decide (n / 8 % 2 = 1)]

/-- Eleven pairwise distinct four-bit descriptors. -/
def descs11 : List Desc := (List.range 11).map bits4

/-- An extraction where every photo yields the same eleven distinct
descriptors (a feature-rich scene). -/
def extractRich : Photo → Option (List Desc) := fun _ => some descs11

/-- `compare_photos` over `extractRich`. -/
def cmpRich : Photo → Photo → Except PyError Bool := compare_photos extractRich

theorem check_orientation_of_all_false (cmp : Photo → Photo → Except PyError Bool) :
    ∀ (hist : List Photo) (p : Photo), (∀ x ∈ hist, cmp p x = Except.ok false) →
    check_orientation cmp hist p = Except.ok false
  | [], _, _ => rfl
  | q :: rest, p, h => by
    have hq : cmp p q = Except.ok false := h q (List.mem_cons_self q rest)
    have ih := check_orientation_of_all_false cmp rest p
      (fun x hx => h x (List.mem_cons_of_mem q hx))
    simp [check_orientation, hq, ih]

theorem all_false_of_check_orientation (cmp : Photo → Photo → Except PyError Bool) :
    ∀ (hist : List Photo) (p : Photo),
    check_orientation cmp hist p = Except.ok false →
    ∀ x ∈ hist, cmp p x = Except.ok false
  | [], _, _, x, hx => absurd hx (List.not_mem_nil x)
  | q :: rest, p, h, x, hx => by
    rcases hcm : cmp p q with e | b
    · rw [check_orientation, hcm] at h
      exact absurd h (by simp)
    · cases b
      · rw [check_orientation, hcm] at h
        rcases List.mem_cons.mp hx with rfl | hx2
        · exact hcm
        · exact all_false_of_check_orientation cmp rest p h x hx2
      · rw [check_orientation, hcm] at h
        exact absurd h (by simp)

theorem check_orientation_append_true (cmp : Photo → Photo → Except PyError Bool) :
    ∀ (l1 : List Photo) (m : Photo) (t : List Photo) (p : Photo),
    (∀ x ∈ l1, cmp p x = Except.ok false) → cmp p m = Except.ok true →
    check_orientation cmp (l1 ++ m :: t) p = Except.ok true
  | [], m, t, p, _, hm => by simp [check_orientation, hm]
  | q :: rest, m, t, p, h, hm => by
    have hq : cmp p q = Except.ok false := h q (List.mem_cons_self q rest)
    have ih := check_orientation_append_true cmp rest m t p
      (fun x hx => h x (List.mem_cons_of_mem q hx)) hm
    simp [check_orientation, hq, ih]

/-- Claim C1: the spec says the per-cycle speed is
`max(min_speed, round(distance / alert_threshold * base_speed))` and that a
`+∞` distance is clamped to a finite cap without overflowing or raising.
The code instead evaluates `int(float('inf'))` on the no-obstacle sentinel,
which raises `OverflowError` — uncaught, since only `KeyboardInterrupt` is
handled. This theorem evaluates the code at the failing input: an absent
sonar reading filters to `+∞` and the speed computation raises. -/
theorem c1_speed_overflow_at_infinity :
    measure_distance none = DistVal.inf
    ∧ computeSpeed DistVal.inf = Except.error PyError.overflowError :=
  ⟨rfl, rfl⟩

/-- Claim C4: the range filter returns `+∞` for an absent or negative raw
reading, passes any reading `≥ 0` through unchanged, and a filtered finite
distance is never negative. -/
theorem c4_range_filter :
    measure_distance none = DistVal.inf
    ∧ (∀ q : ℚ, q < 0 → measure_distance (some q) = DistVal.inf)
    ∧ (∀ q : ℚ, 0 ≤ q → measure_distance (some q) = DistVal.fin q)
    ∧ (∀ (r : Option ℚ) (q : ℚ), measure_distance r = DistVal.fin q → 0 ≤ q) := by
  refine ⟨rfl, ?_, ?_, ?_⟩
  · intro q hq
    simp [measure_distance, hq]
  · intro q hq
    simp [measure_distance, not_lt.mpr hq]
  · intro r q hr
    match r with
    | none => exact absurd hr (by simp [measure_distance])
    | some d =>
      rw [measure_distance] at hr
      split at hr
      · exact absurd hr (by simp)
      · cases hr
        next h => exact not_lt.mp h

/-- Witness for C4 at concrete readings `-3` and `7`. -/
theorem c4_range_filter_witness :
    measure_distance (some (-3)) = DistVal.inf
    ∧ measure_distance (some 7) = DistVal.fin 7 :=
  ⟨c4_range_filter.2.1 (-3) (by norm_num), c4_range_filter.2.2.1 7 (by norm_num)⟩

/-- Claim C3: a filtered distance strictly below the alert threshold makes
the loop take the evasive branch — deterministically a left turn — and
signal the audible alert; a distance at or above the threshold takes the
wandering branch; and the raw sequence `[20, 5, 5, 30]` with threshold 15
yields `[non-evasive, evasive, evasive, non-evasive]`. -/
theorem c3_evasive_policy (q : ℚ) (c : WanderChoice) :
    (q < 15 → motionStep (DistVal.fin q) c = (CycleCmd.evasive avoid_obstacle, true)
      ∧ avoid_obstacle = ⟨GaitAction.turnLeftAngle, TURN_ANGLE, BASE_SPEED⟩)
    ∧ (15 ≤ q → motionStep (DistVal.fin q) c = (CycleCmd.wanderC (wander c), false))
    ∧ (([20, 5, 5, 30] : List ℚ).map
        (fun d => isEvasiveCmd (motionStep (DistVal.fin d) c).1))
      = [false, true, true, false] := by
  refine ⟨?_, ?_, ?_⟩
  · intro h
    constructor
    · simp [motionStep, distLtAlert, ALERT_DISTANCE, h]
    · rfl
  · intro h
    simp [motionStep, distLtAlert, ALERT_DISTANCE, not_lt.mpr h]
  · simp only [List.map_cons, List.map_nil, motionStep, distLtAlert, ALERT_DISTANCE]
    norm_num [isEvasiveCmd]

/-- Witness for C3 at distances `5` (evasive) and `20` (wandering). -/
theorem c3_evasive_policy_witness :
    (motionStep (DistVal.fin 5) WanderChoice.forward
        = (CycleCmd.evasive avoid_obstacle, true)
      ∧ avoid_obstacle = ⟨GaitAction.turnLeftAngle, TURN_ANGLE, BASE_SPEED⟩)
    ∧ motionStep (DistVal.fin 20) WanderChoice.forward
        = (CycleCmd.wanderC (wander WanderChoice.forward), false) :=
  ⟨(c3_evasive_policy 5 WanderChoice.forward).1 (by norm_num),
   (c3_evasive_policy 20 WanderChoice.forward).2.1 (by norm_num)⟩

/-- Claim C8: the spec says each command is issued at the speed decided for
that cycle, but the code's `speed` variable (line 127) is never used:
`avoid_obstacle` and `wander` always call `crawler.do_action` with the
constant `BASE_SPEED`. At distance `5` cm the decided speed is `50`, yet
the issued action carries speed `100`. -/
theorem c8_decided_speed_never_issued :
    computeSpeed (DistVal.fin 5) = Except.ok 50
    ∧ motionStep (DistVal.fin 5) WanderChoice.forward
        = (CycleCmd.evasive avoid_obstacle, true)
    ∧ avoid_obstacle.speed = BASE_SPEED
    ∧ (∀ c : WanderChoice, (wander c).speed = BASE_SPEED)
    ∧ (50 : ℤ) ≠ BASE_SPEED := by
  refine ⟨?_, ?_, rfl, ?_, by decide⟩
  · show Except.ok (max 50 (pyInt ((5 : ℚ) / ALERT_DISTANCE * (BASE_SPEED : ℚ))))
      = Except.ok 50
    have h1 : ((5 : ℚ) / ALERT_DISTANCE * (BASE_SPEED : ℚ)) = 100 / 3 := by
      norm_num [ALERT_DISTANCE, BASE_SPEED]
    have h2 : pyInt ((100 : ℚ) / 3) = 33 := by
      rw [pyInt, if_pos (by norm_num)]
      rw [Int.floor_eq_iff]
      norm_num
    rw [h1, h2]
    norm_num
  · simp [motionStep, distLtAlert, ALERT_DISTANCE]
    norm_num
  · intro c
    cases c <;> rfl

/-- Claim C6: `check_and_remember` scans remembered snapshots in discovery
order; on the first similar entry it returns `true` immediately with the
memory unchanged, never examining later entries (the verdict is the same
for any tail after the first match); when no entry is similar it appends
the snapshot exactly once and returns `false`. -/
theorem c6_scan_and_append (cmp : Photo → Photo → Except PyError Bool)
    (p m : Photo) (l1 l2 l2' hist : List Photo) :
    (hist = l1 ++ m :: l2 → (∀ x ∈ l1, cmp p x = Except.ok false) →
      cmp p m = Except.ok true →
      check_and_remember cmp hist p = Except.ok (true, hist)
      ∧ check_orientation cmp (l1 ++ m :: l2') p = Except.ok true)
    ∧ ((∀ x ∈ hist, cmp p x = Except.ok false) →
      check_and_remember cmp hist p = Except.ok (false, hist ++ [p])
      ∧ (hist ++ [p]).count p = hist.count p + 1) := by
  constructor
  · intro heq h1 hm
    subst heq
    have ho := check_orientation_append_true cmp l1 m l2 p h1 hm
    have ho' := check_orientation_append_true cmp l1 m l2' p h1 hm
    exact ⟨by simp [check_and_remember, ho], ho'⟩
  · intro h
    have ho := check_orientation_of_all_false cmp hist p h
    constructor
    · simp [check_and_remember, ho]
    · simp

/-- Witness for C6: a match at the second position is recognized without
appending (for any tail), and a novel photo is appended exactly once. -/
theorem c6_scan_and_append_witness :
    (check_and_remember cmpEq [1, 5, 7] 5 = Except.ok (true, [1, 5, 7])
      ∧ check_orientation cmpEq ([1] ++ 5 :: []) 5 = Except.ok true)
    ∧ (check_and_remember cmpEq [1, 2] 9 = Except.ok (false, [1, 2, 9])
      ∧ ([1, 2] ++ [9]).count 9 = ([1, 2] : List Photo).count 9 + 1) :=
  ⟨(c6_scan_and_append cmpEq 5 5 [1] [7] [] [1, 5, 7]).1 rfl (by decide) (by decide),
   (c6_scan_and_append cmpEq 9 0 [] [] [] [1, 2]).2 (by decide)⟩

/-- Claim C7 counterexample: the claim asserts that presenting the
identical snapshot twice returns `false` then `true` for EVERY snapshot,
but `compare_photos` demands strictly more than 10 good matches, so a
snapshot yielding only one descriptor is not similar to itself: both calls
return `false` and the photo is stored twice. -/
theorem c7_counterexample :
    check_and_remember cmpOne [] 0 = Except.ok (false, [0])
    ∧ check_and_remember cmpOne [0] 0 = Except.ok (false, [0, 0])
    ∧ check_and_remember cmpOne [0] 0 ≠ Except.ok (true, [0]) :=
  ⟨rfl, rfl, by decide⟩

/-- Claim C7 (amended): for a snapshot that the comparison judges similar
to itself — which requires more than 10 good descriptor matches — and a
memory whose entries are all judged dissimilar to it, the first call
stores it and returns `false` and the second call recognizes it and
returns `true`. -/
theorem c7_idempotence_amended (cmp : Photo → Photo → Except PyError Bool)
    (hist : List Photo) (p : Photo)
    (hno : ∀ x ∈ hist, cmp p x = Except.ok false)
    (hself : cmp p p = Except.ok true) :
    check_and_remember cmp hist p = Except.ok (false, hist ++ [p])
    ∧ check_and_remember cmp (hist ++ [p]) p = Except.ok (true, hist ++ [p]) := by
  have ho := check_orientation_of_all_false cmp hist p hno
  have ho2 := check_orientation_append_true cmp hist p [] p hno hself
  exact ⟨by simp [check_and_remember, ho], by simp [check_and_remember, ho2]⟩

/-- Witness for C7 (amended) with the real ORB pipeline on a snapshot
yielding eleven distinct descriptors: eleven zero-distance self-matches
exceed the threshold of 10. -/
theorem c7_idempotence_amended_witness :
    check_and_remember cmpRich [] 0 = Except.ok (false, [0])
    ∧ check_and_remember cmpRich [0] 0 = Except.ok (true, [0]) :=
  c7_idempotence_amended cmpRich [] 0
    (fun x hx => absurd hx (List.not_mem_nil x)) (by decide)

/-- Claim C10: pairwise dissimilarity of the photo history is an invariant
of `check_and_remember` — a snapshot is appended only after the comparison
returned `ok false` against every existing member, so whenever the history
relates every later entry to every earlier one by a `false` verdict, the
updated history does too. -/
theorem c10_pairwise_dissimilar (cmp : Photo → Photo → Except PyError Bool)
    (hist hist2 : List Photo) (p : Photo) (flag : Bool)
    (hinv : hist.Pairwise (fun a b => cmp b a = Except.ok false))
    (h : check_and_remember cmp hist p = Except.ok (flag, hist2)) :
    hist2.Pairwise (fun a b => cmp b a = Except.ok false) := by
  rw [check_and_remember] at h
  rcases ho : check_orientation cmp hist p with e | b
  · rw [ho] at h
    exact absurd h (by simp)
  · cases b
    · rw [ho] at h
      have hall := all_false_of_check_orientation cmp hist p ho
      have hh : hist ++ [p] = hist2 := by
        injection h with h1
        exact congrArg Prod.snd h1
      rw [← hh, List.pairwise_append]
      refine ⟨hinv, by simp, ?_⟩
      intro a ha b hb
      rw [List.mem_singleton.mp hb]
      exact hall a ha
    · rw [ho] at h
      have hh : hist = hist2 := by
        injection h with h1
        exact congrArg Prod.snd h1
      rw [← hh]
      exact hinv

/-- Witness for C10: a pairwise-dissimilar two-element memory stays
pairwise dissimilar after a novel photo is appended. -/
theorem c10_pairwise_dissimilar_witness :
    ([1, 2, 3] : List Photo).Pairwise (fun a b => cmpEq b a = Except.ok false) :=
  c10_pairwise_dissimilar cmpEq [1, 2] [1, 2, 3] 3 false (by decide) (by decide)

/-- Claim C2 counterexample: with one completed cycle in the trace, a
`KeyboardInterrupt` delivered after the motion step but before the visual
check makes the handler flush immediately: the flushed trace does NOT
contain the in-progress cycle's sample, contradicting the claim that the
cycle is allowed to finish. -/
theorem c2_counterexample :
    runCycle cmpNever ⟨[(10, DistVal.fin 20)], []⟩
        ⟨some 30, WanderChoice.forward, false, none, 200⟩ (some IntrPoint.afterMotion)
      = CycleOutcome.interrupted [(10, DistVal.fin 20)]
    ∧ ((200 : ℤ), DistVal.fin 30) ∉ [((10 : ℤ), DistVal.fin 20)] :=
  ⟨rfl, by decide⟩

/-- Claim C2 (amended): an iteration is NOT atomic — the interrupt is
observed at whatever statement boundary it arrives. Delivered after the
motion step and before the visual check, the remaining steps are skipped
and the flush succeeds with exactly the samples of previously completed
cycles (the in-progress sample is absent); only an interrupt at the cycle
boundary flushes a trace that includes the current cycle's sample. -/
theorem c2_interrupt_not_atomic (cmp : Photo → Photo → Except PyError Bool)
    (s : LoopState) (inp : CycleInput)
    (hd : measure_distance inp.raw ≠ DistVal.inf)
    (hist2 : List Photo)
    (hph : photoStep cmp s.photoHistory inp = Except.ok hist2) :
    runCycle cmp s inp (some IntrPoint.afterMotion) = CycleOutcome.interrupted s.data
    ∧ runCycle cmp s inp (some IntrPoint.afterAppend)
        = CycleOutcome.interrupted (s.data ++ [(inp.angle, measure_distance inp.raw)]) := by
  obtain ⟨k, hk⟩ : ∃ k, computeSpeed (measure_distance inp.raw) = Except.ok k := by
    cases hmd : measure_distance inp.raw with
    | inf => exact absurd hmd hd
    | fin q => exact ⟨_, rfl⟩
  constructor
  · simp [runCycle, hk]
  · simp [runCycle, hk, hph]

/-- Witness for C2 (amended): a concrete cycle interrupted after the
motion step flushes an empty trace, while an interrupt at the cycle
boundary flushes the appended sample. -/
theorem c2_interrupt_not_atomic_witness :
    runCycle cmpNever ⟨[], []⟩ ⟨some 10, WanderChoice.forward, false, none, 42⟩
        (some IntrPoint.afterMotion) = CycleOutcome.interrupted []
    ∧ runCycle cmpNever ⟨[], []⟩ ⟨some 10, WanderChoice.forward, false, none, 42⟩
        (some IntrPoint.afterAppend)
      = CycleOutcome.interrupted [(42, DistVal.fin 10)] :=
  c2_interrupt_not_atomic cmpNever ⟨[], []⟩
    ⟨some 10, WanderChoice.forward, false, none, 42⟩ (by decide) [] rfl

/-- Claim C5: the spec says a snapshot with zero descriptors is treated as
"not similar"; the code has no such guard — `detectAndCompute` yields
`des = None` on a blank image and `bf.match` then raises `cv2.error`, in
either argument position. This theorem evaluates the code at the failing
input. -/
theorem c5_zero_descriptors_raise :
    compare_photos extractBlank 0 1 = Except.error PyError.cvError
    ∧ compare_photos extractBlank 1 0 = Except.error PyError.cvError
    ∧ compare_photos extractBlank 0 0 = Except.error PyError.cvError :=
  ⟨rfl, rfl, rfl⟩

/-- Claim C9 counterexample: Python's `random.randint(0, 360)` is
inclusive of both endpoints, so `360` is a recordable heading, violating
`heading < 360`; a cycle with that draw appends `(360, distance)` to the
trace. -/
theorem c9_counterexample :
    recordedAngle 360
    ∧ ¬((360 : ℤ) < 360)
    ∧ runCycle cmpNever ⟨[], []⟩ ⟨some 10, WanderChoice.forward, false, none, 360⟩ none
        = CycleOutcome.cont ⟨[(360, DistVal.fin 10)], []⟩ :=
  ⟨by decide, by decide, rfl⟩

/-- Claim C9 (amended): every heading a completed cycle appends to the
trace is the cycle's `random.randint(0, 360)` draw and lies in the CLOSED
interval `[0, 360]`. -/
theorem c9_heading_bounds (cmp : Photo → Photo → Except PyError Bool)
    (s : LoopState) (inp : CycleInput) (s2 : LoopState)
    (ha : recordedAngle inp.angle)
    (h : runCycle cmp s inp none = CycleOutcome.cont s2) :
    s2.data = s.data ++ [(inp.angle, measure_distance inp.raw)]
    ∧ 0 ≤ inp.angle ∧ inp.angle ≤ 360 := by
  refine ⟨?_, ha.1, ha.2⟩
  rw [runCycle] at h
  simp only [reduceCtorEq, if_false] at h
  rcases hcs : computeSpeed (measure_distance inp.raw) with e | k
  · rw [hcs] at h
    exact absurd h (by simp)
  · rw [hcs] at h
    rcases hps : photoStep cmp s.photoHistory inp with e | hist2
    · rw [hps] at h
      exact absurd h (by simp)
    · rw [hps] at h
      have h2 : (⟨s.data ++ [(inp.angle, measure_distance inp.raw)], hist2⟩ : LoopState)
          = s2 := by
        injection h
      rw [← h2]

/-- Witness for C9 (amended) at the draw `360` on a concrete cycle. -/
theorem c9_heading_bounds_witness :
    (⟨[(360, DistVal.fin 10)], []⟩ : LoopState).data
        = ([] : List (ℤ × DistVal)) ++ [((360 : ℤ), measure_distance (some 10))]
    ∧ (0 : ℤ) ≤ 360 ∧ (360 : ℤ) ≤ 360 :=
  c9_heading_bounds cmpNever ⟨[], []⟩ ⟨some 10, WanderChoice.forward, false, none, 360⟩
    ⟨[(360, DistVal.fin 10)], []⟩ (by decide) rfl

end Mapping1
